import Mathlib

/-!
Shallow embedding of `src/scripts/run.py` (matrix-wechat-agent supervisor).

The program is a small process supervisor: class `AgentManager` with
`__init__` (signal registration), `stop` (signal handler), `start_vnc`,
`start_agent`, `start`.  We embed each method as a pure function producing
a trace of attempted external effects, the post-state of the manager's
two process-handle attributes, and an optional uncaught Python exception.
Outcomes of the external world (whether `os.kill` raises, what a
subprocess call returns or whether its spawn raises, whether the target
directory already exists, the pids handed out by `Popen`, the child's
exit status) are supplied by oracle structures, so every theorem
quantifies over all environment behaviours.
-/

namespace Run

/-- The three signals `AgentManager.__init__` registers `stop` for. -/
inductive Sig
  | sigint
  | sighup
  | sigterm
deriving DecidableEq, Repr

/-- Python exceptions that the code paths of `run.py` can produce. -/
inductive PyErr
  | attributeError
  | processLookupError
  | keyError (k : String)
  | osError
  | fileExistsError
deriving DecidableEq, Repr

/-- One attempted external effect of the program, in program order. -/
inductive Event
  | logInfo (msg : String)
  | logError (msg : String)
  /-- `os.kill pid SIGTERM` was attempted. -/
  | kill (pid : Nat) (s : Sig)
  /-- `subprocess.run argv` was attempted, with this standard input. -/
  | runCmd (argv : List String) (stdin : Option String)
  /-- `os.makedirs path mode exist_ok` was attempted. -/
  | makedirs (path : String) (mode : Nat) (exist_ok : Bool)
  /-- the file at `path` was opened for writing and `data` written. -/
  | writeFile (path : String) (data : String)
  /-- `os.chmod path mode` was attempted. -/
  | chmod (path : String) (mode : Nat)
  /-- `subprocess.Popen argv` was attempted. -/
  | popen (argv : List String)
  /-- `.wait()` on the child with pid `pid` returned exit status `status`. -/
  | wait (pid : Nat) (status : Int)
deriving DecidableEq, Repr

/-- The manager's two process-handle attributes.  `none` models the
attribute not having been assigned yet (reading it raises
`AttributeError`); `some pid` models a `Popen` handle (always truthy)
whose `.pid` is `pid`. -/
structure AgentState where
  agent : Option Nat
  vnc : Option Nat
deriving DecidableEq, Repr

/-- Result of one method call: the trace of attempted effects, the
post-state of the handle attributes, and the uncaught exception, if the
call raised. -/
structure Outcome where
  trace : List Event
  state : AgentState
  err : Option PyErr
deriving DecidableEq, Repr

/-- Outcome of a `subprocess.run` invocation: either the spawn itself
raised (e.g. executable not found), or the command ran and exited,
producing captured standard output and a return code. -/
inductive RunOutcome
  | raises
  | exits (stdout : String) (returncode : Int)
deriving DecidableEq, Repr

/-- Environment behaviour relevant to `AgentManager.stop`. -/
structure StopOracle where
  /-- `os.kill` on the agent pid raises (process no longer exists). -/
  killAgentRaises : Bool
  /-- `os.kill` on the vnc pid raises (process no longer exists). -/
  killVncRaises : Bool
  /-- outcome of `subprocess.run(["sudo","rm","-f","/tmp/.X5-lock"])`. -/
  rmLock : RunOutcome
  /-- outcome of `subprocess.run(["sudo","rm","-f","/tmp/.X11-unix/X5"])`. -/
  rmSocket : RunOutcome
deriving DecidableEq, Repr

def rmLockArgv : List String := ["sudo", "rm", "-f", "/tmp/.X5-lock"]

def rmSocketArgv : List String := ["sudo", "rm", "-f", "/tmp/.X11-unix/X5"]

/-- Body of one guarded kill block of `stop`:
`if self.h: os.kill(self.h.pid, signal.SIGTERM)`.
Reading an unset attribute raises `AttributeError` before any effect;
a set handle is a truthy `Popen`, so the kill is attempted, and may
raise `ProcessLookupError`. -/
def killBlock (h : Option Nat) (raises : Bool) : List Event × Option PyErr :=
  match h with
  | none => ([], some .attributeError)
  | some pid => ([.kill pid .sigterm], if raises then some .processLookupError else none)

/-- Body of the cleanup block of `stop`: two `subprocess.run` calls in a
single `try`.  If the first invocation raises, control jumps to the
`except` clause and the second is never attempted.  A command that runs
but exits nonzero is a normal return (`check` is not set), so it raises
nothing. -/
def cleanupBlock (r1 r2 : RunOutcome) : List Event × Option PyErr :=
  match r1 with
  | .raises => ([.runCmd rmLockArgv none], some .osError)
  | .exits _ _ =>
    match r2 with
    | .raises => ([.runCmd rmLockArgv none, .runCmd rmSocketArgv none], some .osError)
    | .exits _ _ => ([.runCmd rmLockArgv none, .runCmd rmSocketArgv none], none)

/-- `try: body except Exception as e: logger.error(msg, ...)` —
any raised exception is logged and swallowed. -/
def pyTry (body : List Event × Option PyErr) (msg : String) : List Event :=
  match body with
  | (evs, none) => evs
  | (evs, some _) => evs ++ [.logError msg]

/-- `AgentManager.stop(self, signum, frame)` — the signal handler.
`signum` is received but never used by the body.  The handle attributes
are only read, never assigned, and every block is wrapped in
`try/except Exception`, so the handler always returns normally. -/
def stop (st : AgentState) (signum : Sig) (o : StopOracle) : Outcome :=
  { trace :=
      [Event.logInfo "Stop agent..."]
        ++ pyTry (killBlock st.agent o.killAgentRaises) "Error at stop agent"
        ++ [Event.logInfo "Stop vnc..."]
        ++ pyTry (killBlock st.vnc o.killVncRaises) "Error at stop vnc"
        ++ pyTry (cleanupBlock o.rmLock o.rmSocket) "Error at cleanup X"
    state := st
    err := none }

/-- The signals `__init__` registers the `stop` handler for. -/
def registeredSignals : List Sig := [.sigint, .sighup, .sigterm]

/-- Events that are attempted effects on the outside world (everything
except logging). -/
def isEffect : Event → Bool
  | .logInfo _ => false
  | .logError _ => false
  | _ => true

def effects (tr : List Event) : List Event := tr.filter isEffect

/-- The kill events a handle contributes to the effect trace of `stop`. -/
def optKill (h : Option Nat) : List Event :=
  match h with
  | none => []
  | some pid => [.kill pid .sigterm]

/-- Number of termination attempts (kill events) in a trace. -/
def countKills (tr : List Event) : Nat :=
  (tr.filter fun e => match e with | .kill _ _ => true | _ => false).length

/-- Number of cleanup removal attempts (runCmd events) in a trace. -/
def countRemovals (tr : List Event) : Nat :=
  (tr.filter fun e => match e with | .runCmd _ _ => true | _ => false).length

/-- Number of handle attributes currently set. -/
def numSet (st : AgentState) : Nat :=
  (if st.agent.isSome then 1 else 0) + (if st.vnc.isSome then 1 else 0)

/-- Environment behaviour relevant to `start_vnc` / `start_agent`.
Opening `/home/user/.vnc/passwd` for writing and `os.chmod` on it are
modelled as succeeding: no claim concerns their failure, and on the
startup path any such exception would simply propagate uncaught. -/
structure StartOracle where
  /-- `os.environ`, looked up by variable name. -/
  env : String → Option String
  /-- whether `/home/user/.vnc` already exists when `makedirs` runs. -/
  vncDirExists : Bool
  /-- outcome of the `/usr/bin/vncpasswd -f` subprocess call. -/
  vncpasswd : RunOutcome
  /-- `subprocess.Popen` of the vncserver command raises at spawn. -/
  vncserverRaises : Bool
  /-- pid of the spawned vncserver process. -/
  vncPid : Nat
  /-- `subprocess.Popen` of the wine agent command raises at spawn. -/
  agentRaises : Bool
  /-- pid of the spawned agent process. -/
  agentPid : Nat
  /-- exit status the blocking `.wait()` observes for the agent child. -/
  agentExit : Int

def vncDir : String := "/home/user/.vnc"

def passwdFile : String := "/home/user/.vnc/passwd"

def vncpasswdArgv : List String := ["/usr/bin/vncpasswd", "-f"]

def vncserverArgv : List String :=
  ["/usr/bin/vncserver", "-localhost", "no", "-xstartup", "/usr/bin/openbox", ":5"]

def agentArgv : List String :=
  ["wine", "cmd", "/k", "/home/user/matrix-wechat-agent/matrix-wechat-agent.exe"]

/-- `os.makedirs(path, mode, exist_ok)`: raises `FileExistsError` only
when the directory exists and `exist_ok` is false; the creation attempt
is recorded either way. -/
def makedirsEffect (path : String) (mode : Nat) (exist_ok : Bool) (dirExists : Bool) :
    List Event × Option PyErr :=
  ([.makedirs path mode exist_ok],
   if dirExists && !exist_ok then some .fileExistsError else none)

/-- `AgentManager.start_vnc`.  Program order, as in the source:
log; `os.makedirs('/home/user/.vnc', mode=755, exist_ok=True)`;
read `os.environ['VNCPASS']` (argument evaluation precedes the
`subprocess.run` call, so a missing variable raises `KeyError` before
any subprocess is attempted); run `/usr/bin/vncpasswd -f` with the
password on standard input, capturing output; write the captured
standard output to `/home/user/.vnc/passwd`; `os.chmod` it to `0o700`;
`Popen` the vncserver command and assign the handle to `self.vnc`.
The return code of the vncpasswd call is never inspected. -/
def start_vnc (st : AgentState) (o : StartOracle) : Outcome :=
  let ev0 := [Event.logInfo "Start vnc..."]
  let mk := makedirsEffect vncDir 755 true o.vncDirExists
  match mk.2 with
  | some e => { trace := ev0 ++ mk.1, state := st, err := some e }
  | none =>
    match o.env "VNCPASS" with
    | none => { trace := ev0 ++ mk.1, state := st, err := some (.keyError "VNCPASS") }
    | some pass =>
      match o.vncpasswd with
      | .raises =>
        { trace := ev0 ++ mk.1 ++ [.runCmd vncpasswdArgv (some pass)]
          state := st
          err := some .osError }
      | .exits out _rc =>
        let ev1 := ev0 ++ mk.1 ++ [Event.runCmd vncpasswdArgv (some pass),
          Event.writeFile passwdFile out, Event.chmod passwdFile 0o700]
        if o.vncserverRaises then
          { trace := ev1 ++ [.popen vncserverArgv], state := st, err := some .osError }
        else
          { trace := ev1 ++ [.popen vncserverArgv]
            state := { st with vnc := some o.vncPid }
            err := none }

/-- `AgentManager.start_agent`: log; `Popen` the wine command and assign
the handle to `self.agent`; block in `self.agent.wait()` until the
child exits.  `wait` returns the child's exit status, which the source
discards without inspection. -/
def start_agent (st : AgentState) (o : StartOracle) : Outcome :=
  let ev0 := [Event.logInfo "Start agent..."]
  if o.agentRaises then
    { trace := ev0 ++ [.popen agentArgv], state := st, err := some .osError }
  else
    { trace := ev0 ++ [.popen agentArgv, .wait o.agentPid o.agentExit]
      state := { st with agent := some o.agentPid }
      err := none }

/-- `AgentManager.start`: `start_vnc()` then `start_agent()`; an
exception in the first propagates and the second never runs. -/
def start (st : AgentState) (o : StartOracle) : Outcome :=
  let r1 := start_vnc st o
  match r1.err with
  | some e => { trace := r1.trace, state := r1.state, err := some e }
  | none =>
    let r2 := start_agent r1.state o
    { trace := r1.trace ++ r2.trace, state := r2.state, err := r2.err }

/-- Spawn-class events: subprocess invocations (`subprocess.run` and
`subprocess.Popen`). -/
def isSpawn : Event → Bool
  | .runCmd _ _ => true
  | .popen _ => true
  | _ => false

/-! ## Theorems -/

/-- Claim C2: for every manager state, triggering signal and environment
behaviour — application handle unset, display-server handle unset, a
kill raising because the process is gone, either removal invocation
raising — `stop` returns without an uncaught exception: every block of
its body is wrapped in `try/except Exception`. -/
theorem stop_never_raises (st : AgentState) (s : Sig) (o : StopOracle) :
    (stop st s o).err = none := rfl

/-- Claim C10: `stop` only reads the two handle attributes; after any
invocation, `agent` and `vnc` hold exactly the values they held
before. -/
theorem stop_state_frame (st : AgentState) (s : Sig) (o : StopOracle) :
    (stop st s o).state = st := rfl

/-- Claim C1, counterexample: with both handles set and the first
removal invocation raising (both calls sit in one `try`), the attempted
effect sequence stops after the lock-file removal — the socket-path
removal is never attempted, so the claimed four-step sequence does not
occur. -/
theorem stop_socket_skip_cex :
    effects (stop ⟨some 1, some 2⟩ .sigterm
        ⟨false, false, .raises, .exits "" 0⟩).trace
      ≠ optKill (some 1) ++ optKill (some 2)
          ++ [Event.runCmd rmLockArgv none, Event.runCmd rmSocketArgv none] := by
  decide

/-- Claim C1 as amended: provided the lock-file removal invocation does
not itself raise, the attempted effects of `stop` are exactly: a
termination signal to the application process (only if its handle is
set), then one to the display-server process (only if its handle is
set), then removal of the lock-file path, then removal of the socket
path — and the whole outcome is independent of which of the three
registered signals triggered the handler. -/
theorem stop_effect_order (st : AgentState) (s : Sig) (o : StopOracle)
    (hs : s ∈ registeredSignals) (h : o.rmLock ≠ RunOutcome.raises) :
    effects (stop st s o).trace
      = optKill st.agent ++ optKill st.vnc
          ++ [Event.runCmd rmLockArgv none, Event.runCmd rmSocketArgv none]
    ∧ ∀ s' : Sig, stop st s' o = stop st s o := by
  refine ⟨?_, fun s' => rfl⟩
  rcases st with ⟨a, v⟩
  rcases o with ⟨ka, kv, r1, r2⟩
  cases r1 with
  | raises => exact absurd rfl h
  | exits out rc =>
    cases a <;> cases v <;> cases ka <;> cases kv <;> cases r2 <;>
      simp [stop, pyTry, killBlock, cleanupBlock, effects, optKill, isEffect]

theorem stop_effect_order_witness :
    effects (stop ⟨some 1, some 2⟩ .sigint
        ⟨true, false, .exits "" 1, .exits "" 0⟩).trace
      = optKill (some 1) ++ optKill (some 2)
          ++ [Event.runCmd rmLockArgv none, Event.runCmd rmSocketArgv none]
    ∧ ∀ s' : Sig, stop ⟨some 1, some 2⟩ s' ⟨true, false, .exits "" 1, .exits "" 0⟩
        = stop ⟨some 1, some 2⟩ .sigint ⟨true, false, .exits "" 1, .exits "" 0⟩ :=
  stop_effect_order ⟨some 1, some 2⟩ .sigint ⟨true, false, .exits "" 1, .exits "" 0⟩
    (by decide) (by decide)

/-- Claim C4, counterexample: with the display-server handle set, an
invocation in which the lock-file removal call raises makes only one
cleanup removal attempt, not two: the second `subprocess.run` in the
shared `try` block is skipped. -/
theorem stop_removal_count_cex :
    ¬ countRemovals (stop ⟨some 3, some 4⟩ .sighup
        ⟨false, false, .raises, .exits "" 0⟩).trace = 2 := by
  decide

/-- Claim C4 as amended: for every shutdown invocation after the
display-server handle is set, provided the lock-file removal invocation
does not raise (a removal command that merely exits nonzero raises
nothing, since `check` is not set), the trace contains exactly one
termination attempt per handle that is set and exactly two cleanup
removal attempts, with no uncaught error. -/
theorem stop_attempt_counts (st : AgentState) (s : Sig) (o : StopOracle)
    (hv : st.vnc.isSome = true) (h : o.rmLock ≠ RunOutcome.raises) :
    countKills (stop st s o).trace = numSet st
    ∧ countRemovals (stop st s o).trace = 2
    ∧ (stop st s o).err = none := by
  refine ⟨?_, ?_, rfl⟩ <;>
  · rcases st with ⟨a, v⟩
    rcases o with ⟨ka, kv, r1, r2⟩
    cases r1 with
    | raises => exact absurd rfl h
    | exits out rc =>
      cases a <;> cases v <;> cases ka <;> cases kv <;> cases r2 <;>
        simp [stop, pyTry, killBlock, cleanupBlock, countKills, countRemovals,
          numSet]


theorem stop_attempt_counts_witness :
    (⟨none, some 9⟩ : AgentState).vnc.isSome = true
    ∧ (countKills (stop ⟨none, some 9⟩ .sigterm
          ⟨false, true, .exits "" 1, .exits "" 1⟩).trace = numSet ⟨none, some 9⟩
        ∧ countRemovals (stop ⟨none, some 9⟩ .sigterm
            ⟨false, true, .exits "" 1, .exits "" 1⟩).trace = 2
        ∧ (stop ⟨none, some 9⟩ .sigterm ⟨false, true, .exits "" 1, .exits "" 1⟩).err
            = none) :=
  ⟨by decide,
   stop_attempt_counts ⟨none, some 9⟩ .sigterm ⟨false, true, .exits "" 1, .exits "" 1⟩
     (by decide) (by decide)⟩

/-- Claim C3: if `VNCPASS` is absent from the environment, `start`
raises `KeyError` after the directory creation but before any
subprocess is attempted: the trace contains no `subprocess.run` and no
`Popen` event, and both handle attributes are exactly as before the
call. -/
theorem start_missing_password (st : AgentState) (o : StartOracle)
    (h : o.env "VNCPASS" = none) :
    (start st o).trace = [.logInfo "Start vnc...", .makedirs vncDir 755 true]
    ∧ (start st o).state = st
    ∧ (start st o).err = some (.keyError "VNCPASS")
    ∧ (start st o).trace.filter isSpawn = [] := by
  refine ⟨?_, ?_, ?_, ?_⟩ <;>
    simp [start, start_vnc, makedirsEffect, h, isSpawn]

/-- Concrete environment with no variables set, used as a witness. -/
def oEnvAbsent : StartOracle :=
  { env := fun _ => none
    vncDirExists := false
    vncpasswd := .exits "" 0
    vncserverRaises := false
    vncPid := 7
    agentRaises := false
    agentPid := 8
    agentExit := 0 }

theorem start_missing_password_witness :
    oEnvAbsent.env "VNCPASS" = none
    ∧ ((start ⟨none, none⟩ oEnvAbsent).trace
          = [.logInfo "Start vnc...", .makedirs vncDir 755 true]
        ∧ (start ⟨none, none⟩ oEnvAbsent).state = ⟨none, none⟩
        ∧ (start ⟨none, none⟩ oEnvAbsent).err = some (.keyError "VNCPASS")
        ∧ (start ⟨none, none⟩ oEnvAbsent).trace.filter isSpawn = []) :=
  ⟨rfl, start_missing_password ⟨none, none⟩ oEnvAbsent rfl⟩

/-- Claim C5: for every prior state and every environment in which the
password variable is set, the vncpasswd call returns, and the vncserver
spawn succeeds — whether or not `/home/user/.vnc` already exists —
`start_vnc` creates the directory without failing (`exist_ok` is true),
writes the captured output to the credential file and chmods it to
`0o700` (owner bits 7, group and other bits 0), and spawns the display
server with exactly the fixed argument list
`/usr/bin/vncserver -localhost no -xstartup /usr/bin/openbox :5`. -/
theorem start_vnc_behaviour (st : AgentState) (o : StartOracle)
    (p out : String) (rc : Int)
    (hp : o.env "VNCPASS" = some p) (hr : o.vncpasswd = .exits out rc)
    (hs : o.vncserverRaises = false) :
    (start_vnc st o).trace
      = [.logInfo "Start vnc...", .makedirs vncDir 755 true,
         .runCmd vncpasswdArgv (some p), .writeFile passwdFile out,
         .chmod passwdFile 0o700, .popen vncserverArgv]
    ∧ (start_vnc st o).state = { st with vnc := some o.vncPid }
    ∧ (start_vnc st o).err = none
    ∧ (0o700 : Nat) / 64 = 7 ∧ (0o700 : Nat) % 64 = 0 := by
  refine ⟨?_, ?_, ?_, by decide, by decide⟩ <;>
    simp [start_vnc, makedirsEffect, hp, hr, hs]

/-- Concrete environment holding `VNCPASS=secret`, reused by several
witnesses; the target directory already exists, exercising
idempotent creation. -/
def oSecret : StartOracle :=
  { env := fun k => if k = "VNCPASS" then some "secret" else none
    vncDirExists := true
    vncpasswd := .exits "hash" 0
    vncserverRaises := false
    vncPid := 11
    agentRaises := false
    agentPid := 12
    agentExit := 0 }

theorem start_vnc_behaviour_witness :
    oSecret.env "VNCPASS" = some "secret"
    ∧ ((start_vnc ⟨none, none⟩ oSecret).trace
          = [.logInfo "Start vnc...", .makedirs vncDir 755 true,
             .runCmd vncpasswdArgv (some "secret"), .writeFile passwdFile "hash",
             .chmod passwdFile 0o700, .popen vncserverArgv]
        ∧ (start_vnc ⟨none, none⟩ oSecret).state
            = { agent := none, vnc := some oSecret.vncPid }
        ∧ (start_vnc ⟨none, none⟩ oSecret).err = none
        ∧ (0o700 : Nat) / 64 = 7 ∧ (0o700 : Nat) % 64 = 0) :=
  ⟨rfl, start_vnc_behaviour ⟨none, none⟩ oSecret "secret" "hash" 0 rfl rfl rfl⟩

/-- Claim C6: when the agent spawn succeeds, `start_agent` assigns the
handle, blocks in `.wait()` on the spawned child (the final trace event
is the wait on that child), and returns normally with the same
post-state and no error for every exit status the child reports: the
returned state and error are independent of the observed status. -/
theorem start_agent_blocks (st : AgentState) (o : StartOracle)
    (h : o.agentRaises = false) :
    (start_agent st o).trace
      = [.logInfo "Start agent...", .popen agentArgv, .wait o.agentPid o.agentExit]
    ∧ (start_agent st o).state = { st with agent := some o.agentPid }
    ∧ (start_agent st o).err = none
    ∧ ∀ x : Int,
        (start_agent st { o with agentExit := x }).state = (start_agent st o).state
        ∧ (start_agent st { o with agentExit := x }).err = (start_agent st o).err := by
  refine ⟨?_, ?_, ?_, fun x => ⟨?_, ?_⟩⟩ <;> simp [start_agent, h]

theorem start_agent_blocks_witness :
    (start_agent ⟨none, some 11⟩ oSecret).trace
      = [.logInfo "Start agent...", .popen agentArgv,
         .wait oSecret.agentPid oSecret.agentExit]
    ∧ (start_agent ⟨none, some 11⟩ oSecret).state
        = { agent := some oSecret.agentPid, vnc := some 11 }
    ∧ (start_agent ⟨none, some 11⟩ oSecret).err = none
    ∧ ∀ x : Int,
        (start_agent ⟨none, some 11⟩ { oSecret with agentExit := x }).state
          = (start_agent ⟨none, some 11⟩ oSecret).state
        ∧ (start_agent ⟨none, some 11⟩ { oSecret with agentExit := x }).err
            = (start_agent ⟨none, some 11⟩ oSecret).err :=
  start_agent_blocks ⟨none, some 11⟩ oSecret rfl

/-- Claim C7: with `VNCPASS` set to `secret` and every spawn
succeeding, the trace of `start` is exactly: directory ensure, the
password-hash call with `secret` on its standard input, the credential
file write (then its chmod), the display-server spawn, the application
spawn, and the blocking wait — each listed step strictly after the
previous one, interleaved only with log lines. -/
theorem start_end_to_end (st : AgentState) (o : StartOracle)
    (out : String) (rc : Int)
    (hp : o.env "VNCPASS" = some "secret") (hr : o.vncpasswd = .exits out rc)
    (hs : o.vncserverRaises = false) (ha : o.agentRaises = false) :
    (start st o).trace
      = [.logInfo "Start vnc...", .makedirs vncDir 755 true,
         .runCmd vncpasswdArgv (some "secret"), .writeFile passwdFile out,
         .chmod passwdFile 0o700, .popen vncserverArgv,
         .logInfo "Start agent...", .popen agentArgv, .wait o.agentPid o.agentExit]
    ∧ (start st o).err = none := by
  constructor <;>
    simp [start, start_vnc, start_agent, makedirsEffect, hp, hr, hs, ha]

theorem start_end_to_end_witness :
    oSecret.env "VNCPASS" = some "secret"
    ∧ ((start ⟨none, none⟩ oSecret).trace
          = [.logInfo "Start vnc...", .makedirs vncDir 755 true,
             .runCmd vncpasswdArgv (some "secret"), .writeFile passwdFile "hash",
             .chmod passwdFile 0o700, .popen vncserverArgv,
             .logInfo "Start agent...", .popen agentArgv,
             .wait oSecret.agentPid oSecret.agentExit]
        ∧ (start ⟨none, none⟩ oSecret).err = none) :=
  ⟨rfl, start_end_to_end ⟨none, none⟩ oSecret "hash" 0 rfl rfl rfl rfl⟩

/-- Claim C8: in every run of `start_vnc`, the directory-creation
attempt passes the decimal literal `755` as the mode — which equals
octal `0o1363` and is not the conventional `0o755`. -/
theorem makedirs_mode_755 (st : AgentState) (o : StartOracle) :
    (start_vnc st o).trace.take 2
      = [.logInfo "Start vnc...", .makedirs vncDir 755 true]
    ∧ (755 : Nat) = 0o1363 ∧ (755 : Nat) ≠ 0o755 := by
  refine ⟨?_, by decide, by decide⟩
  rcases o with ⟨env, de, vp, vr, vpid, ar, apid, ax⟩
  cases h : env "VNCPASS" <;> cases vp <;> cases vr <;>
    simp [start_vnc, makedirsEffect, h]

/-- Claim C9: `start_vnc` never inspects the return code of the
vncpasswd call: for every run in which `VNCPASS` is set but the hashing
utility exits with a nonzero status, its captured standard output is
still written to the credential file and the display server is still
spawned, with no error raised. -/
theorem vncpasswd_rc_ignored (st : AgentState) (o : StartOracle)
    (p out : String) (rc : Int)
    (hp : o.env "VNCPASS" = some p) (hr : o.vncpasswd = .exits out rc)
    (hrc : rc ≠ 0) (hs : o.vncserverRaises = false) :
    (start_vnc st o).trace
      = [.logInfo "Start vnc...", .makedirs vncDir 755 true,
         .runCmd vncpasswdArgv (some p), .writeFile passwdFile out,
         .chmod passwdFile 0o700, .popen vncserverArgv]
    ∧ (start_vnc st o).state = { st with vnc := some o.vncPid }
    ∧ (start_vnc st o).err = none := by
  refine ⟨?_, ?_, ?_⟩ <;> simp [start_vnc, makedirsEffect, hp, hr, hs]

/-- Concrete environment in which vncpasswd exits with status 1. -/
def oBadHash : StartOracle :=
  { oSecret with vncpasswd := .exits "garbled" 1 }

theorem vncpasswd_rc_ignored_witness :
    oBadHash.env "VNCPASS" = some "secret"
    ∧ oBadHash.vncpasswd = .exits "garbled" 1
    ∧ (1 : Int) ≠ 0
    ∧ ((start_vnc ⟨none, none⟩ oBadHash).trace
          = [.logInfo "Start vnc...", .makedirs vncDir 755 true,
             .runCmd vncpasswdArgv (some "secret"), .writeFile passwdFile "garbled",
             .chmod passwdFile 0o700, .popen vncserverArgv]
        ∧ (start_vnc ⟨none, none⟩ oBadHash).state
            = { agent := none, vnc := some oBadHash.vncPid }
        ∧ (start_vnc ⟨none, none⟩ oBadHash).err = none) :=
  ⟨rfl, rfl, by decide,
   vncpasswd_rc_ignored ⟨none, none⟩ oBadHash "secret" "garbled" 1 rfl rfl
     (by decide) rfl⟩

end Run
